import Mathlib

/-!
Shallow embedding of the Flask CRUD service in `app.py`
(Docker_Flask_CRUD_APP): a single `users` table behind five HTTP
handlers plus the startup pipeline (DATABASE_URL resolution and the
unbounded connection retry loop).

Modelling conventions:
* The PostgreSQL table `users (id SERIAL PRIMARY KEY, name VARCHAR(50)
  NOT NULL, email VARCHAR(100) NOT NULL UNIQUE)` is a list of rows plus
  the next SERIAL value.  `dbInsert` / `dbUpdate` / `dbDelete` /
  `dbSelect` reproduce the engine's behaviour on the statements the
  handlers issue, including the VARCHAR length limits and the UNIQUE
  email constraint.
* JSON values reaching a handler via `request.get_json()` are `JVal`;
  a JSON object is an association list so that key order is observable.
* A handler returns its HTTP outcome, the table state after the
  request, and the list of SQL commands it sent on the shared
  connection.  A Python exception that escapes the handler (KeyError on
  a missing body field, or a psycopg2 error raised by `cur.execute`) is
  `Outcome.crash`; Flask turns such an exception into an HTTP 500
  response, which `Outcome.httpStatus` reflects.
-/

/-- A JSON scalar as seen by the handlers. -/
inductive JVal where
  | str (s : String)
  | num (n : Nat)
  | null
deriving DecidableEq, Repr

/-- A JSON object: an association list, so that key order is kept. -/
abbrev JsonObj := List (String × JVal)

/-- A JSON response body: one object or an array of objects. -/
inductive Body where
  | obj (o : JsonObj)
  | arr (os : List JsonObj)
deriving DecidableEq, Repr

/-- One row of the `users` table. -/
structure UserRow where
  id : Nat
  name : String
  email : String
deriving DecidableEq, Repr

/-- The `users` table: its rows and the next value of the SERIAL
`id` sequence. -/
structure DB where
  rows : List UserRow
  nextId : Nat
deriving DecidableEq, Repr

/-- Engine invariant of a SERIAL primary key: every stored id is below
the next sequence value. -/
def DB.wf (db : DB) : Prop :=
  ∀ r ∈ db.rows, r.id < db.nextId

instance (db : DB) : Decidable (DB.wf db) :=
  inferInstanceAs (Decidable (∀ r ∈ db.rows, r.id < db.nextId))

/-- The SQL commands a handler can send on the shared connection. -/
inductive SqlOp where
  | select
  | insert
  | update
  | delete
  | commit
deriving DecidableEq, Repr

/-- Whether a SQL command can change the table. -/
def SqlOp.isMutation : SqlOp → Bool
  | .select => false
  | _ => true

/-- Database-side errors raised by `cur.execute` as psycopg2
exceptions.  `typeError` is a non-string constant bound to a VARCHAR
column (rejected at parse/plan time); `valueTooLong` is a string
constant exceeding the column width (the assignment cast of a
constant, also evaluated at plan time); `notNullViolation` and
`uniqueViolation` are per-row checks evaluated during execution. -/
inductive DbError where
  | uniqueViolation
  | valueTooLong
  | typeError
  | notNullViolation
deriving DecidableEq, Repr

/-- A Python exception escaping a handler. -/
inductive PyExn where
  | keyError (key : String)
  | dbError (e : DbError)
deriving DecidableEq, Repr

/-- The HTTP-visible outcome of one request.  `crash` is an uncaught
exception, which Flask converts to a 500 Internal Server Error. -/
inductive Outcome where
  | response (status : Nat) (body : Body)
  | crash (e : PyExn)
deriving DecidableEq, Repr

/-- The HTTP status code the client sees. -/
def Outcome.httpStatus : Outcome → Nat
  | .response s _ => s
  | .crash _ => 500

/-- The body `{"error": "User not found"}` used by all 404 branches. -/
def notFound : Body :=
  .obj [("error", .str "User not found")]

/-- `{"id": u.id, "name": u.name, "email": u.email}`: the object built
from one fetched row, keys in the SELECT column order. -/
def userJson (u : UserRow) : JsonObj :=
  [("id", .num u.id), ("name", .str u.name), ("email", .str u.email)]

/-- The parse/plan-time fate of one bound value assigned to a VARCHAR
column of width `w`.  psycopg2 v2 interpolates parameters client-side,
so the server sees literal constants: a non-string constant fails the
assignment type check and an over-length string constant fails the
assignment cast to `varchar(w)` already while planning, before any
row is touched.  A NULL constant passes planning (NOT NULL is a
per-row execution check). -/
def JVal.planError : JVal → Nat → Option DbError
  | .num _, _ => some .typeError
  | .str s, w => if s.length ≤ w then none else some .valueTooLong
  | .null, _ => none

/-- `INSERT INTO users (name, email) VALUES (%s, %s) RETURNING id`
against the schema: each constant is first checked at plan time
against its column (type and VARCHAR(50)/VARCHAR(100) width), then
the inserted row is checked for NOT NULL and the UNIQUE email index;
on success the row is appended with the next SERIAL id. -/
def dbInsert (db : DB) (nameV emailV : JVal) : Except DbError (Nat × DB) :=
  match nameV.planError 50 with
  | some err => .error err
  | none =>
  match emailV.planError 100 with
  | some err => .error err
  | none =>
  match nameV, emailV with
  | .str n, .str e =>
    if db.rows.any (fun r => r.email == e) then
      .error .uniqueViolation
    else
      .ok (db.nextId, ⟨db.rows ++ [⟨db.nextId, n, e⟩], db.nextId + 1⟩)
  | _, _ => .error .notNullViolation

/-- `UPDATE users SET name=%s, email=%s WHERE id=%s RETURNING id`:
each constant is checked at plan time against its column (so a
non-string or over-length value errors even when no row matches the
WHERE clause), then the WHERE clause selects the row (`ok none` when
no row matches, as `fetchone` returns None), and only then do the
per-row NOT NULL and UNIQUE email checks fire on the updated row (the
catchall row-level branch is a NULL value; a numeric one was already
rejected while planning). -/
def dbUpdate (db : DB) (uid : Nat) (nameV emailV : JVal) :
    Except DbError (Option DB) :=
  match nameV.planError 50 with
  | some err => .error err
  | none =>
  match emailV.planError 100 with
  | some err => .error err
  | none =>
  if db.rows.any (fun r => r.id == uid) then
    match nameV, emailV with
    | .str n, .str e =>
      if db.rows.any (fun r => r.id != uid && r.email == e) then
        .error .uniqueViolation
      else
        .ok (some ⟨db.rows.map (fun r => if r.id = uid then ⟨r.id, n, e⟩ else r),
                   db.nextId⟩)
    | _, _ => .error .notNullViolation
  else .ok none

/-- `DELETE FROM users WHERE id=%s RETURNING id`: `none` when no row
matches, otherwise the table without the matching row. -/
def dbDelete (db : DB) (uid : Nat) : Option DB :=
  if db.rows.any (fun r => r.id == uid) then
    some ⟨db.rows.filter (fun r => r.id != uid), db.nextId⟩
  else none

/-- Handler for `GET /users`: `SELECT id, name, email FROM users;`,
then one JSON object per row. -/
def get_users (db : DB) : Outcome × DB × List SqlOp :=
  (.response 200 (.arr (db.rows.map userJson)), db, [.select])

/-- Handler for `GET /users/<int:user_id>`: SELECT by id, 200 with the
row object or 404. -/
def get_user (db : DB) (uid : Nat) : Outcome × DB × List SqlOp :=
  match db.rows.find? (fun r => r.id == uid) with
  | some u => (.response 200 (.obj (userJson u)), db, [.select])
  | none => (.response 404 notFound, db, [.select])

/-- Handler for `POST /users`: reads `data["name"]` and `data["email"]`
(a missing key raises KeyError before any SQL runs), executes the
INSERT (a database error escapes uncaught, the commit after it never
runs), and on success commits and returns 201 echoing the submitted
values with the id from RETURNING. -/
def create_user (db : DB) (data : JsonObj) : Outcome × DB × List SqlOp :=
  match List.lookup "name" data with
  | none => (.crash (.keyError "name"), db, [])
  | some nameV =>
    match List.lookup "email" data with
    | none => (.crash (.keyError "email"), db, [])
    | some emailV =>
      match dbInsert db nameV emailV with
      | .error err => (.crash (.dbError err), db, [.insert])
      | .ok (newId, db') =>
        (.response 201 (.obj [("id", .num newId), ("name", nameV), ("email", emailV)]),
         db', [.insert, .commit])

/-- Handler for `PUT /users/<int:user_id>`: reads the body fields
(KeyError on a missing one, before any SQL), executes the UPDATE
(a database error escapes uncaught), commits, then returns 200 with
the path id and submitted values if a row matched, else 404. -/
def update_user (db : DB) (uid : Nat) (data : JsonObj) :
    Outcome × DB × List SqlOp :=
  match List.lookup "name" data with
  | none => (.crash (.keyError "name"), db, [])
  | some nameV =>
    match List.lookup "email" data with
    | none => (.crash (.keyError "email"), db, [])
    | some emailV =>
      match dbUpdate db uid nameV emailV with
      | .error err => (.crash (.dbError err), db, [.update])
      | .ok none => (.response 404 notFound, db, [.update, .commit])
      | .ok (some db') =>
        (.response 200 (.obj [("id", .num uid), ("name", nameV), ("email", emailV)]),
         db', [.update, .commit])

/-- Handler for `DELETE /users/<int:user_id>`: executes the DELETE,
commits, then returns the confirmation message if a row matched,
else 404. -/
def delete_user (db : DB) (uid : Nat) : Outcome × DB × List SqlOp :=
  match dbDelete db uid with
  | some db' =>
    (.response 200 (.obj [("message", .str (s!"User {uid} deleted"))]),
     db', [.delete, .commit])
  | none => (.response 404 notFound, db, [.delete, .commit])

/-- Startup step 1, lines 10-12 of `app.py`: `os.environ.get` followed
by `raise ValueError` when the value is falsy (absent or empty). -/
def resolveDatabaseUrl (envValue : Option String) : Except String String :=
  match envValue with
  | none => .error "DATABASE_URL environment variable not set!"
  | some url =>
    if url = "" then .error "DATABASE_URL environment variable not set!"
    else .ok url

/-- Startup events observable from the retry loop: the failure print,
the `time.sleep(2)` call, and the success print. -/
inductive Event where
  | logFailure (reason : String)
  | sleepSeconds (n : Nat)
  | logSuccess
deriving DecidableEq, Repr

/-- The `while True` connection loop of `app.py`, fuel-indexed so that
it is definable: `connectLoop attempt k fuel` runs at most `fuel`
iterations starting from attempt number `k`.  `attempt n` is the
outcome of the n-th `psycopg2.connect` call (`error reason` models the
raised exception).  `none` means the loop is still running when the
fuel runs out; `some (i, events)` means attempt `i` succeeded and
`events` is the log/sleep trace the loop produced. -/
def connectLoop (attempt : Nat → Except String Unit) : Nat → Nat → Option (Nat × List Event)
  | _, 0 => none
  | k, fuel + 1 =>
    match attempt k with
    | .ok _ => some (k, [.logSuccess])
    | .error e =>
      match connectLoop attempt (k + 1) fuel with
      | none => none
      | some (i, evs) => some (i, .logFailure e :: .sleepSeconds 2 :: evs)

/-- The trace of `m` consecutive failing attempts starting at attempt
`k`: each failure is logged and followed by a 2-second sleep. -/
def failTrace (attempt : Nat → Except String Unit) : Nat → Nat → List Event
  | _, 0 => []
  | k, m + 1 =>
    match attempt k with
    | .ok _ => []
    | .error e => .logFailure e :: .sleepSeconds 2 :: failTrace attempt (k + 1) m

/-- The whole startup pipeline before the HTTP server runs: resolve
DATABASE_URL, then (only if that succeeded) enter the connection
retry loop.  `ok none` means startup is still waiting for the
database; configuration failure is the only `error`. -/
def startup (envValue : Option String) (attempt : Nat → Except String Unit)
    (fuel : Nat) : Except String (Option (Nat × List Event)) :=
  (resolveDatabaseUrl envValue).map (fun _ => connectLoop attempt 0 fuel)

/-- A concrete connection oracle: the first two attempts fail, every
later one succeeds. -/
def exAttempt : Nat → Except String Unit
  | 0 => .error "connection refused"
  | 1 => .error "connection refused"
  | _ => .ok ()

/-!
Helper lemmas.
-/

theorem lookup_body_name (a b : JVal) :
    List.lookup "name" [("name", a), ("email", b)] = some a := rfl

theorem lookup_body_email (a b : JVal) :
    List.lookup "email" [("name", a), ("email", b)] = some b := rfl

theorem find_append_right {α : Type} (p : α → Bool) (l₁ l₂ : List α)
    (h : ∀ x ∈ l₁, p x = false) :
    List.find? p (l₁ ++ l₂) = List.find? p l₂ := by
  induction l₁ with
  | nil => rfl
  | cons a t ih =>
    have ha := h a (List.mem_cons_self a t)
    simp only [List.cons_append, List.find?, ha]
    exact ih (fun x hx => h x (List.mem_cons_of_mem a hx))

theorem connectLoop_succ_err (attempt : Nat → Except String Unit) (k fuel : Nat)
    (e : String) (h : attempt k = .error e) :
    connectLoop attempt k (fuel + 1) =
      match connectLoop attempt (k + 1) fuel with
      | none => none
      | some (i, evs) => some (i, .logFailure e :: .sleepSeconds 2 :: evs) := by
  conv_lhs => rw [connectLoop]
  rw [h]

theorem failTrace_succ_err (attempt : Nat → Except String Unit) (k m : Nat)
    (e : String) (h : attempt k = .error e) :
    failTrace attempt k (m + 1) =
      .logFailure e :: .sleepSeconds 2 :: failTrace attempt (k + 1) m := by
  conv_lhs => rw [failTrace]
  rw [h]

theorem connectLoop_some_spec (attempt : Nat → Except String Unit) :
    ∀ fuel k i evs, connectLoop attempt k fuel = some (i, evs) →
      k ≤ i ∧ attempt i = Except.ok () ∧
      (∀ j, k ≤ j → j < i → ∃ e, attempt j = Except.error e) ∧
      evs = failTrace attempt k (i - k) ++ [Event.logSuccess] := by
  intro fuel
  induction fuel with
  | zero =>
    intro k i evs h
    simp [connectLoop] at h
  | succ fuel ih =>
    intro k i evs h
    cases hk : attempt k with
    | ok u =>
      cases u
      unfold connectLoop at h
      rw [hk] at h
      simp only [Option.some.injEq, Prod.mk.injEq] at h
      obtain ⟨hki, hevs⟩ := h
      subst hki
      subst hevs
      refine ⟨Nat.le_refl k, hk, ?_, ?_⟩
      · intro j hkj hjk
        omega
      · simp [failTrace, Nat.sub_self]
    | error e =>
      rw [connectLoop_succ_err attempt k fuel e hk] at h
      cases hrec : connectLoop attempt (k + 1) fuel with
      | none =>
        rw [hrec] at h
        simp at h
      | some p =>
        obtain ⟨i', evs'⟩ := p
        rw [hrec] at h
        simp only [Option.some.injEq, Prod.mk.injEq] at h
        obtain ⟨hi, hevs⟩ := h
        subst hi
        obtain ⟨hle, hok, hfail, htr⟩ := ih (k + 1) i' evs' hrec
        refine ⟨by omega, hok, ?_, ?_⟩
        · intro j hkj hji
          rcases Nat.eq_or_lt_of_le hkj with heq | hlt
          · exact ⟨e, heq ▸ hk⟩
          · exact hfail j hlt hji
        · subst hevs
          have hik : i' - k = (i' - (k + 1)) + 1 := by omega
          rw [hik, failTrace_succ_err attempt k (i' - (k + 1)) e hk, htr]
          rfl

theorem connectLoop_none_of_all_fail (attempt : Nat → Except String Unit)
    (hfail : ∀ n, ∃ e, attempt n = Except.error e) :
    ∀ fuel k, connectLoop attempt k fuel = none := by
  intro fuel
  induction fuel with
  | zero =>
    intro k
    rfl
  | succ fuel ih =>
    intro k
    obtain ⟨e, he⟩ := hfail k
    rw [connectLoop_succ_err attempt k fuel e he, ih (k + 1)]

theorem create_user_str (db : DB) (n e : String) :
    create_user db [("name", JVal.str n), ("email", JVal.str e)] =
      match dbInsert db (JVal.str n) (JVal.str e) with
      | .error err => (.crash (.dbError err), db, [.insert])
      | .ok (newId, db') =>
        (.response 201 (.obj [("id", .num newId), ("name", .str n), ("email", .str e)]),
         db', [.insert, .commit]) := rfl

theorem update_user_str (db : DB) (uid : Nat) (n e : String) :
    update_user db uid [("name", JVal.str n), ("email", JVal.str e)] =
      match dbUpdate db uid (JVal.str n) (JVal.str e) with
      | .error err => (.crash (.dbError err), db, [.update])
      | .ok none => (.response 404 notFound, db, [.update, .commit])
      | .ok (some db') =>
        (.response 200 (.obj [("id", .num uid), ("name", .str n), ("email", .str e)]),
         db', [.update, .commit]) := rfl

theorem dbInsert_ok (db : DB) (n e : String) (hn : n.length ≤ 50)
    (he : e.length ≤ 100) (hfresh : ∀ r ∈ db.rows, r.email ≠ e) :
    dbInsert db (JVal.str n) (JVal.str e) =
      .ok (db.nextId, ⟨db.rows ++ [⟨db.nextId, n, e⟩], db.nextId + 1⟩) := by
  have hany : db.rows.any (fun r => r.email == e) = false := by
    rw [List.any_eq_false]
    intro r hr
    simpa using hfresh r hr
  simp [dbInsert, JVal.planError, hn, he, hany]

theorem find_new_row (db : DB) (hwf : DB.wf db) (n e : String) :
    List.find? (fun r => r.id == db.nextId) (db.rows ++ [⟨db.nextId, n, e⟩]) =
      some ⟨db.nextId, n, e⟩ := by
  rw [find_append_right]
  · simp [List.find?]
  · intro x hx
    simp only [beq_eq_false_iff_ne]
    exact Nat.ne_of_lt (hwf x hx)

/-!
Claim theorems.
-/

/-- Claim C1: a valid create (string fields fitting the schema, email
not already taken) returns 201 echoing the submitted name and email
with the fresh id, and an immediate GET on that id returns 200 with
the same name and email. -/
theorem create_then_get_roundtrip (db : DB) (n e : String)
    (hwf : DB.wf db) (hn : n.length ≤ 50) (he : e.length ≤ 100)
    (hfresh : ∀ r ∈ db.rows, r.email ≠ e) :
    create_user db [("name", JVal.str n), ("email", JVal.str e)] =
      (Outcome.response 201 (Body.obj
        [("id", JVal.num db.nextId), ("name", JVal.str n), ("email", JVal.str e)]),
       ⟨db.rows ++ [⟨db.nextId, n, e⟩], db.nextId + 1⟩,
       [SqlOp.insert, SqlOp.commit]) ∧
    (get_user ⟨db.rows ++ [⟨db.nextId, n, e⟩], db.nextId + 1⟩ db.nextId).1 =
      Outcome.response 200 (Body.obj
        [("id", JVal.num db.nextId), ("name", JVal.str n), ("email", JVal.str e)]) := by
  constructor
  · rw [create_user_str, dbInsert_ok db n e hn he hfresh]
  · unfold get_user
    dsimp only
    rw [find_new_row db hwf n e]
    rfl

/-- Witness for C1: creating Bob in a one-row table and fetching id 2
round-trips his name and email. -/
theorem create_then_get_roundtrip_witness :
    create_user ⟨[⟨1, "Ada", "ada@x.com"⟩], 2⟩
        [("name", JVal.str "Bob"), ("email", JVal.str "bob@x.com")] =
      (Outcome.response 201 (Body.obj
        [("id", JVal.num 2), ("name", JVal.str "Bob"), ("email", JVal.str "bob@x.com")]),
       ⟨[⟨1, "Ada", "ada@x.com"⟩] ++ [⟨2, "Bob", "bob@x.com"⟩], 3⟩,
       [SqlOp.insert, SqlOp.commit]) ∧
    (get_user ⟨[⟨1, "Ada", "ada@x.com"⟩] ++ [⟨2, "Bob", "bob@x.com"⟩], 3⟩ 2).1 =
      Outcome.response 200 (Body.obj
        [("id", JVal.num 2), ("name", JVal.str "Bob"), ("email", JVal.str "bob@x.com")]) :=
  create_then_get_roundtrip ⟨[⟨1, "Ada", "ada@x.com"⟩], 2⟩ "Bob" "bob@x.com"
    (by decide) (by decide) (by decide) (by decide)

/-- Claim C2 (divergence): posting a second user with an email already
in the table makes the INSERT raise a unique-constraint error that the
handler does not catch, so the client sees HTTP 500, not a 4xx with a
descriptive body; the existing rows are untouched (the part of the
claim that does hold). -/
theorem dup_email_insert_uncaught (db : DB) (r : UserRow) (hr : r ∈ db.rows)
    (n : String) (hn : n.length ≤ 50) (he : r.email.length ≤ 100) :
    create_user db [("name", JVal.str n), ("email", JVal.str r.email)] =
      (Outcome.crash (PyExn.dbError DbError.uniqueViolation), db, [SqlOp.insert]) ∧
    Outcome.httpStatus (Outcome.crash (PyExn.dbError DbError.uniqueViolation)) = 500 := by
  have hany : db.rows.any (fun x => x.email == r.email) = true :=
    List.any_eq_true.mpr ⟨r, hr, by simp⟩
  refine ⟨?_, rfl⟩
  rw [create_user_str]
  simp [dbInsert, JVal.planError, hn, he, hany]

/-- Witness for C2: re-posting Ada's email crashes the handler with
the unique violation and leaves the table as it was. -/
theorem dup_email_insert_uncaught_witness :
    create_user ⟨[⟨1, "Ada", "ada@x.com"⟩], 2⟩
        [("name", JVal.str "Bob"), ("email", JVal.str "ada@x.com")] =
      (Outcome.crash (PyExn.dbError DbError.uniqueViolation),
       ⟨[⟨1, "Ada", "ada@x.com"⟩], 2⟩, [SqlOp.insert]) ∧
    Outcome.httpStatus (Outcome.crash (PyExn.dbError DbError.uniqueViolation)) = 500 :=
  dup_email_insert_uncaught ⟨[⟨1, "Ada", "ada@x.com"⟩], 2⟩ ⟨1, "Ada", "ada@x.com"⟩
    (by decide) "Bob" (by decide) (by decide)

/-- Claim C3 (divergence): a body without the required field makes the
handler raise an uncaught KeyError, which Flask surfaces as HTTP 500
rather than a 4xx; no SQL is sent and the table is unchanged (the part
of the claim that does hold).  For a wrong-typed field the INSERT is
sent before failing, so in that case a SQL statement does execute. -/
theorem missing_field_uncaught_keyerror (db : DB) (body : JsonObj) (uid : Nat)
    (h : List.lookup "name" body = none) :
    create_user db body = (Outcome.crash (PyExn.keyError "name"), db, []) ∧
    update_user db uid body = (Outcome.crash (PyExn.keyError "name"), db, []) ∧
    Outcome.httpStatus (Outcome.crash (PyExn.keyError "name")) = 500 ∧
    (create_user db [("name", JVal.null), ("email", JVal.str "x@y.z")]).2.2 =
      [SqlOp.insert] := by
  refine ⟨?_, ?_, rfl, rfl⟩
  · unfold create_user
    rw [h]
  · unfold update_user
    rw [h]

/-- Witness for C3: a body carrying only an email crashes both the
create and the update handler with KeyError before any SQL runs. -/
theorem missing_field_uncaught_keyerror_witness :
    create_user ⟨[⟨1, "Ada", "ada@x.com"⟩], 2⟩ [("email", JVal.str "bob@x.com")] =
      (Outcome.crash (PyExn.keyError "name"), ⟨[⟨1, "Ada", "ada@x.com"⟩], 2⟩, []) ∧
    update_user ⟨[⟨1, "Ada", "ada@x.com"⟩], 2⟩ 1 [("email", JVal.str "bob@x.com")] =
      (Outcome.crash (PyExn.keyError "name"), ⟨[⟨1, "Ada", "ada@x.com"⟩], 2⟩, []) ∧
    Outcome.httpStatus (Outcome.crash (PyExn.keyError "name")) = 500 ∧
    (create_user ⟨[⟨1, "Ada", "ada@x.com"⟩], 2⟩
        [("name", JVal.null), ("email", JVal.str "x@y.z")]).2.2 = [SqlOp.insert] :=
  missing_field_uncaught_keyerror ⟨[⟨1, "Ada", "ada@x.com"⟩], 2⟩
    [("email", JVal.str "bob@x.com")] 1 (by decide)

/-- Counterexample to C4 as stated: id 7 matches no row of the table,
yet a PUT whose name has 51 characters fails the varchar(50)
plan-time assignment cast before the WHERE clause matters; the error
escapes the handler uncaught, so the client sees 500 and not the
promised 404. -/
theorem put_nonexistent_overlength_counterexample :
    update_user ⟨[⟨1, "Ada", "ada@x.com"⟩], 2⟩ 7
        [("name", JVal.str "aaaaaaaaaaaaaaaaaaaaaaaaaaaaaaaaaaaaaaaaaaaaaaaaaaa"),
         ("email", JVal.str "bob@x.com")] =
      (Outcome.crash (PyExn.dbError DbError.valueTooLong),
       ⟨[⟨1, "Ada", "ada@x.com"⟩], 2⟩, [SqlOp.update]) ∧
    Outcome.httpStatus
      (update_user ⟨[⟨1, "Ada", "ada@x.com"⟩], 2⟩ 7
        [("name", JVal.str "aaaaaaaaaaaaaaaaaaaaaaaaaaaaaaaaaaaaaaaaaaaaaaaaaaa"),
         ("email", JVal.str "bob@x.com")]).1 = 500 ∧
    (update_user ⟨[⟨1, "Ada", "ada@x.com"⟩], 2⟩ 7
        [("name", JVal.str "aaaaaaaaaaaaaaaaaaaaaaaaaaaaaaaaaaaaaaaaaaaaaaaaaaa"),
         ("email", JVal.str "bob@x.com")]).1 ≠
      Outcome.response 404 notFound := by
  refine ⟨?_, ?_, ?_⟩ <;> decide

/-- Claim C4 as amended: for an id matching no row, GET and DELETE
answer 404 with the body `{"error": "User not found"}` and leave the
table unchanged, and so does PUT provided the submitted name and
email are strings fitting the schema columns (at most 50 and 100
characters); an over-length or non-string value instead makes the
UPDATE fail at plan time and the handler answer 500.  The status on
the amended inputs is 404, not a 5xx. -/
theorem nonexistent_id_returns_404 (db : DB) (uid : Nat) (n e : String)
    (h : ∀ r ∈ db.rows, r.id ≠ uid) (hn : n.length ≤ 50) (he : e.length ≤ 100) :
    get_user db uid = (Outcome.response 404 notFound, db, [SqlOp.select]) ∧
    update_user db uid [("name", JVal.str n), ("email", JVal.str e)] =
      (Outcome.response 404 notFound, db, [SqlOp.update, SqlOp.commit]) ∧
    delete_user db uid =
      (Outcome.response 404 notFound, db, [SqlOp.delete, SqlOp.commit]) ∧
    Outcome.httpStatus (Outcome.response 404 notFound) = 404 := by
  have hany : db.rows.any (fun r => r.id == uid) = false := by
    rw [List.any_eq_false]
    intro r hr
    simpa using h r hr
  have hfind : db.rows.find? (fun r => r.id == uid) = none := by
    rw [List.find?_eq_none]
    intro r hr
    simpa using h r hr
  refine ⟨?_, ?_, ?_, rfl⟩
  · unfold get_user
    rw [hfind]
  · rw [update_user_str]
    simp [dbUpdate, JVal.planError, hn, he, hany]
  · unfold delete_user dbDelete
    rw [hany]
    simp

/-- Witness for C4: id 7 is absent from a one-row table, and all three
handlers answer 404. -/
theorem nonexistent_id_returns_404_witness :
    get_user ⟨[⟨1, "Ada", "ada@x.com"⟩], 2⟩ 7 =
      (Outcome.response 404 notFound, ⟨[⟨1, "Ada", "ada@x.com"⟩], 2⟩, [SqlOp.select]) ∧
    update_user ⟨[⟨1, "Ada", "ada@x.com"⟩], 2⟩ 7
        [("name", JVal.str "Bob"), ("email", JVal.str "bob@x.com")] =
      (Outcome.response 404 notFound, ⟨[⟨1, "Ada", "ada@x.com"⟩], 2⟩,
       [SqlOp.update, SqlOp.commit]) ∧
    delete_user ⟨[⟨1, "Ada", "ada@x.com"⟩], 2⟩ 7 =
      (Outcome.response 404 notFound, ⟨[⟨1, "Ada", "ada@x.com"⟩], 2⟩,
       [SqlOp.delete, SqlOp.commit]) ∧
    Outcome.httpStatus (Outcome.response 404 notFound) = 404 :=
  nonexistent_id_returns_404 ⟨[⟨1, "Ada", "ada@x.com"⟩], 2⟩ 7 "Bob" "bob@x.com"
    (by decide) (by decide) (by decide)

/-- Claim C5: deleting an existing id answers 200 with the message
`User {id} deleted`, the row is removed from the table (hard delete),
and a subsequent GET for that id answers 404. -/
theorem delete_then_get_404 (db : DB) (r : UserRow) (hr : r ∈ db.rows) :
    delete_user db r.id =
      (Outcome.response 200 (Body.obj [("message", JVal.str (s!"User {r.id} deleted"))]),
       ⟨db.rows.filter (fun x => x.id != r.id), db.nextId⟩,
       [SqlOp.delete, SqlOp.commit]) ∧
    (get_user ⟨db.rows.filter (fun x => x.id != r.id), db.nextId⟩ r.id).1 =
      Outcome.response 404 notFound := by
  have hany : db.rows.any (fun x => x.id == r.id) = true :=
    List.any_eq_true.mpr ⟨r, hr, by simp⟩
  have hfind :
      (db.rows.filter (fun x => x.id != r.id)).find? (fun x => x.id == r.id) = none := by
    rw [List.find?_eq_none]
    intro x hx
    have hne := (List.mem_filter.mp hx).2
    simp only [bne_iff_ne] at hne
    simpa using hne
  constructor
  · unfold delete_user dbDelete
    rw [hany]
    rfl
  · unfold get_user
    dsimp only
    rw [hfind]

/-- Witness for C5: deleting user 1 confirms with the message naming
id 1 and a following GET of id 1 answers 404. -/
theorem delete_then_get_404_witness :
    delete_user ⟨[⟨1, "Ada", "ada@x.com"⟩], 2⟩ 1 =
      (Outcome.response 200 (Body.obj [("message", JVal.str "User 1 deleted")]),
       ⟨List.filter (fun x => x.id != 1) [⟨1, "Ada", "ada@x.com"⟩], 2⟩,
       [SqlOp.delete, SqlOp.commit]) ∧
    (get_user ⟨List.filter (fun x => x.id != 1) [⟨1, "Ada", "ada@x.com"⟩], 2⟩ 1).1 =
      Outcome.response 404 notFound :=
  delete_then_get_404 ⟨[⟨1, "Ada", "ada@x.com"⟩], 2⟩ ⟨1, "Ada", "ada@x.com"⟩ (by decide)

/-- Counterexample to C6 as stated: in a table holding Ada (id 1) and
Bob (id 2), updating user 1 to Bob's email makes the UPDATE raise the
unique-constraint error uncaught, so the handler answers 500 and not
the promised 200 object. -/
theorem update_dup_email_counterexample :
    update_user ⟨[⟨1, "Ada", "ada@x.com"⟩, ⟨2, "Bob", "bob@x.com"⟩], 3⟩ 1
        [("name", JVal.str "Ada"), ("email", JVal.str "bob@x.com")] =
      (Outcome.crash (PyExn.dbError DbError.uniqueViolation),
       ⟨[⟨1, "Ada", "ada@x.com"⟩, ⟨2, "Bob", "bob@x.com"⟩], 3⟩, [SqlOp.update]) ∧
    Outcome.httpStatus
      (update_user ⟨[⟨1, "Ada", "ada@x.com"⟩, ⟨2, "Bob", "bob@x.com"⟩], 3⟩ 1
        [("name", JVal.str "Ada"), ("email", JVal.str "bob@x.com")]).1 = 500 ∧
    (update_user ⟨[⟨1, "Ada", "ada@x.com"⟩, ⟨2, "Bob", "bob@x.com"⟩], 3⟩ 1
        [("name", JVal.str "Ada"), ("email", JVal.str "bob@x.com")]).1 ≠
      Outcome.response 200 (Body.obj
        [("id", JVal.num 1), ("name", JVal.str "Ada"), ("email", JVal.str "bob@x.com")]) := by
  refine ⟨?_, ?_, ?_⟩ <;> decide

/-- Claim C6 as amended: for an existing id and a string body fitting
the schema whose email is not used by any other row, PUT rewrites only
that row's name and email, keeps its id and every other row and the
id sequence unchanged, and answers 200 with the path id and the
submitted values. -/
theorem update_frame_amended (db : DB) (r : UserRow) (hr : r ∈ db.rows)
    (n e : String) (hn : n.length ≤ 50) (he : e.length ≤ 100)
    (hfresh : ∀ x ∈ db.rows, x.id ≠ r.id → x.email ≠ e) :
    update_user db r.id [("name", JVal.str n), ("email", JVal.str e)] =
      (Outcome.response 200 (Body.obj
        [("id", JVal.num r.id), ("name", JVal.str n), ("email", JVal.str e)]),
       ⟨db.rows.map (fun x => if x.id = r.id then ⟨x.id, n, e⟩ else x), db.nextId⟩,
       [SqlOp.update, SqlOp.commit]) := by
  have hexists : db.rows.any (fun x => x.id == r.id) = true :=
    List.any_eq_true.mpr ⟨r, hr, by simp⟩
  have huniq : db.rows.any (fun x => x.id != r.id && x.email == e) = false := by
    rw [List.any_eq_false]
    intro x hx
    simp only [Bool.and_eq_true, bne_iff_ne, beq_iff_eq, not_and]
    exact fun hne => hfresh x hx hne
  rw [update_user_str]
  simp [dbUpdate, JVal.planError, hn, he, hexists, huniq]

/-- Witness for C6 as amended: updating Ada (id 1) to a fresh email in
a two-row table rewrites only her row and answers 200. -/
theorem update_frame_amended_witness :
    update_user ⟨[⟨1, "Ada", "ada@x.com"⟩, ⟨2, "Bob", "bob@x.com"⟩], 3⟩ 1
        [("name", JVal.str "Ada L."), ("email", JVal.str "lovelace@x.com")] =
      (Outcome.response 200 (Body.obj
        [("id", JVal.num 1), ("name", JVal.str "Ada L."),
         ("email", JVal.str "lovelace@x.com")]),
       ⟨List.map (fun x => if x.id = 1 then ⟨x.id, "Ada L.", "lovelace@x.com"⟩ else x)
          [⟨1, "Ada", "ada@x.com"⟩, ⟨2, "Bob", "bob@x.com"⟩], 3⟩,
       [SqlOp.update, SqlOp.commit]) :=
  update_frame_amended ⟨[⟨1, "Ada", "ada@x.com"⟩, ⟨2, "Bob", "bob@x.com"⟩], 3⟩
    ⟨1, "Ada", "ada@x.com"⟩ (by decide) "Ada L." "lovelace@x.com"
    (by decide) (by decide) (by decide)

/-- Claim C7: with zero rows, `GET /users` returns status 200 with an
empty JSON array; in general it returns one JSON object per row, with
keys id, name, email in that fixed column order, and issues a single
SELECT. -/
theorem list_users_shape (db : DB) (k : Nat) :
    get_users ⟨[], k⟩ =
      (Outcome.response 200 (Body.arr []), ⟨[], k⟩, [SqlOp.select]) ∧
    get_users db =
      (Outcome.response 200 (Body.arr (db.rows.map userJson)), db, [SqlOp.select]) ∧
    ∀ u : UserRow, userJson u =
      [("id", JVal.num u.id), ("name", JVal.str u.name), ("email", JVal.str u.email)] :=
  ⟨rfl, rfl, fun _ => rfl⟩

/-- Claim C8: when DATABASE_URL is unset, startup fails at once with
the ValueError message naming the variable, for every connection
oracle and every amount of fuel — so the connection loop is never
entered and the failure is not retried. -/
theorem missing_database_url_fatal (attempt : Nat → Except String Unit) (fuel : Nat) :
    startup none attempt fuel =
      Except.error "DATABASE_URL environment variable not set!" := rfl

/-- Claim C10: the two read handlers return the table unchanged and
issue exactly one SELECT, which is not a mutation; hence reads between
writes cannot affect later results. -/
theorem read_handlers_pure (db : DB) (uid : Nat) :
    (get_users db).2.1 = db ∧ (get_users db).2.2 = [SqlOp.select] ∧
    (get_user db uid).2.1 = db ∧ (get_user db uid).2.2 = [SqlOp.select] ∧
    SqlOp.isMutation SqlOp.select = false := by
  refine ⟨rfl, rfl, ?_, ?_, rfl⟩ <;>
    · unfold get_user
      cases db.rows.find? (fun r => r.id == uid) <;> rfl

/-- Claim C9: the connection loop logs every failed attempt and sleeps
a fixed 2 seconds after each, and it produces a result only when an
attempt succeeds, with every earlier attempt having failed; when every
attempt fails, the loop is still running after any amount of fuel, so
the failure never becomes fatal and there is no maximum attempt
count. -/
theorem connect_retry_spec (attempt : Nat → Except String Unit) :
    (∀ fuel i evs, connectLoop attempt 0 fuel = some (i, evs) →
      attempt i = Except.ok () ∧
      (∀ j, j < i → ∃ e, attempt j = Except.error e) ∧
      evs = failTrace attempt 0 i ++ [Event.logSuccess]) ∧
    ((∀ n, ∃ e, attempt n = Except.error e) →
      ∀ fuel, connectLoop attempt 0 fuel = none) := by
  constructor
  · intro fuel i evs h
    obtain ⟨_, hok, hfail, htr⟩ := connectLoop_some_spec attempt fuel 0 i evs h
    exact ⟨hok, fun j hj => hfail j (Nat.zero_le j) hj, by simpa using htr⟩
  · intro hfail fuel
    exact connectLoop_none_of_all_fail attempt hfail fuel 0

/-- Witness for C9 at a concrete oracle that fails twice: the loop
exits at attempt 2, both earlier attempts failed, and the trace is
two logged failures each followed by a 2-second sleep, then success. -/
theorem connect_retry_spec_witness :
    exAttempt 2 = Except.ok () ∧
    (∀ j, j < 2 → ∃ e, exAttempt j = Except.error e) ∧
    ([Event.logFailure "connection refused", Event.sleepSeconds 2,
      Event.logFailure "connection refused", Event.sleepSeconds 2,
      Event.logSuccess] : List Event) = failTrace exAttempt 0 2 ++ [Event.logSuccess] :=
  (connect_retry_spec exAttempt).1 5 2
    [Event.logFailure "connection refused", Event.sleepSeconds 2,
     Event.logFailure "connection refused", Event.sleepSeconds 2,
     Event.logSuccess] rfl
